import Mathlib

/-!
Shallow embedding of `src/index.js` of IdosAutoBot-NTE: the resilient
request executor (`requestWithRetry`), token introspection
(`extractUserIdFromToken` with its base64url padding repair), the
check-in / points flows and the per-cycle orchestration.

Strings from the JavaScript side are modelled as `List Char`; machine
numbers used for backoff arithmetic (`backoff *= 1.5`) are modelled as
rationals; JavaScript `null`/`undefined` become `Option`.
-/

namespace Idos

/-- One network attempt as observed by `requestWithRetry`'s `try` block:
either axios resolves with a response (status, body data, and whether the
body is truthy with `success === false`, plus its `error` field), or it
throws an error carrying an optional HTTP status (`error.response ?
error.response.status : null`) and a message. -/
inductive Attempt (α : Type) where
  | resp (status : Nat) (data : α) (successFlagFalse : Bool)
      (errField : Option (List Char))
  | err (status : Option Nat) (msg : List Char)
deriving DecidableEq

/-- The HTTP status visible on an attempt (`null` for a transport-level
error with no response). -/
def Attempt.statusOf {α : Type} : Attempt α → Option Nat
  | .resp s _ _ _ => some s
  | .err s _ => s

/-- The record `requestWithRetry` returns: `{success:true, response:data}`
or `{success:false, message, status}` (status may be `null`). -/
inductive ExecOutcome (α : Type) where
  | success (response : α)
  | failure (message : List Char) (status : Option Nat)
deriving DecidableEq

/-- `'Unknown error'` -/
def unknownError : List Char := "Unknown error".toList

/-- `status >= 400 && status < 500 && status !== 429` under JavaScript
semantics: `null` compared with `>=` coerces to `0`, so a `null` status
never satisfies it. -/
def isClientError : Option Nat → Bool
  | some s => 400 ≤ s && s < 500 && s ≠ 429
  | none => false

/-- `status === 429 || (status >= 500 && status < 600)` under JavaScript
semantics: a `null` status fails both disjuncts. -/
def isRetryable : Option Nat → Bool
  | some s => s == 429 || (500 ≤ s && s < 600)
  | none => false

/-- What one logical call to `requestWithRetry` did: the returned record
(`none` models the `undefined` fall-off when the `for` loop body never
runs), the backoff durations slept (ms), and how many attempts ran. -/
structure RunResult (α : Type) where
  outcome : Option (ExecOutcome α)
  sleeps : List ℚ
  attemptsUsed : Nat
deriving DecidableEq

/-- The `for (let i = 0; i < retries; i++)` loop of `requestWithRetry`,
recursing on the number of remaining iterations (`remaining = retries - i`,
so `i < retries - 1` becomes `1 < remaining`).  Each iteration consumes
`att i`; on a body with `success === false` it returns a failure built from
the body's `error` field, on a 4xx-except-429 status it returns the failure
immediately, on a retryable status with iterations remaining it sleeps the
current backoff (forced to 30000 by a 429), multiplies it by 1.5 and
continues, and otherwise returns the failure. -/
def requestLoop {α : Type} (att : Nat → Attempt α) (i remaining : Nat)
    (backoff : ℚ) : RunResult α :=
  match remaining with
  | 0 => ⟨none, [], 0⟩
  | r + 1 =>
    match att i with
    | .resp status data successFlagFalse errField =>
      if successFlagFalse then
        ⟨some (.failure (errField.getD unknownError) (some status)), [], 1⟩
      else
        ⟨some (.success data), [], 1⟩
    | .err status msg =>
      if isClientError status then
        ⟨some (.failure msg status), [], 1⟩
      else
        let backoff1 := if status == some 429 then (30000 : ℚ) else backoff
        if isRetryable status ∧ 0 < r then
          let rest := requestLoop att (i + 1) r (backoff1 * 1.5)
          ⟨rest.outcome, backoff1 :: rest.sleeps, rest.attemptsUsed + 1⟩
        else
          ⟨some (.failure msg status), [], 1⟩

/-- `requestWithRetry(method, url, payload, config, retries, backoff)`:
runs the attempt loop starting at `i = 0` with the given retry budget and
initial backoff (defaults in the source: 5 and 5000 ms). -/
def requestWithRetry {α : Type} (att : Nat → Attempt α) (retries : Nat)
    (backoff : ℚ) : RunResult α :=
  requestLoop att 0 retries backoff

/-! ### Token introspection (`extractUserIdFromToken`) -/

/-- JavaScript `accessToken.split('.')` on a string modelled as
`List Char`: splitting at every dot, keeping empty segments (so the empty
string yields one empty segment). -/
def splitOnDot : List Char → List (List Char)
  | [] => [[]]
  | c :: rest =>
    if c = '.' then [] :: splitOnDot rest
    else
      match splitOnDot rest with
      | [] => [[c]]
      | g :: gs => (c :: g) :: gs

/-- JavaScript global `s.replace` for a single-character pattern:
replace every occurrence of `a` by `b`. -/
def replaceAll (a b : Char) (s : List Char) : List Char :=
  s.map fun c => if c = a then b else c

/-- The padding-repair step of `extractUserIdFromToken`: globally replace
`'-'` by `'+'` and `'_'` by `'/'` in `parts[1]`, then append
`(4 - base64.length % 4) % 4` copies of `'='`. -/
def base64urlRepair (s : List Char) : List Char :=
  let base64 := replaceAll '_' '/' (replaceAll '-' '+' s)
  let paddingLength := (4 - base64.length % 4) % 4
  base64 ++ List.replicate paddingLength '='

/-- The standard base64 alphabet used by `Buffer.from(.., 'base64')`. -/
def stdAlphabet : List Char :=
  "ABCDEFGHIJKLMNOPQRSTUVWXYZabcdefghijklmnopqrstuvwxyz0123456789+/".toList

/-- The base64url alphabet (`-` and `_` in place of `+` and `/`). -/
def urlAlphabet : List Char :=
  "ABCDEFGHIJKLMNOPQRSTUVWXYZabcdefghijklmnopqrstuvwxyz0123456789-_".toList

/-- The base64url character of a 6-bit value. -/
def sextetToUrlChar (s : Nat) : Char := urlAlphabet.getD s 'A'

/-- The 6-bit value of a standard base64 character (`none` for a character
outside the alphabet, `'='` included). -/
def charToSextet (c : Char) : Option Nat := stdAlphabet.findIdx? (· == c)

/-- The character translation performed by the two global replaces of the
padding repair: `'-'` becomes `'+'` and `'_'` becomes `'/'`. -/
def repairTr (c : Char) : Char :=
  if c = '-' then '+' else if c = '_' then '/' else c

/-- Modelled from the spec: the encoding direction of the round-trip —
"encoding a structured payload into the token's middle segment (base64url,
unpadded)" — which is performed by the remote service, not by code under
`src/`.  Bytes are grouped in threes; a trailing group of one byte yields
two characters and of two bytes three characters, with no `'='` padding. -/
def encodeBase64Url : List Nat → List Char
  | [] => []
  | [a] => [sextetToUrlChar (a / 4), sextetToUrlChar (a % 4 * 16)]
  | [a, b] =>
      [sextetToUrlChar (a / 4), sextetToUrlChar (a % 4 * 16 + b / 16),
       sextetToUrlChar (b % 16 * 4)]
  | a :: b :: c :: rest =>
      sextetToUrlChar (a / 4) :: sextetToUrlChar (a % 4 * 16 + b / 16) ::
      sextetToUrlChar (b % 16 * 4 + c / 64) :: sextetToUrlChar (c % 64) ::
      encodeBase64Url rest

/-- `Buffer.from(base64, 'base64')` on a correctly padded standard-base64
string: decode four characters to three bytes, with `'=='` marking a final
one-byte group and `'='` a final two-byte group; any other occurrence of a
character outside the alphabet fails. -/
def decodeBase64 : List Char → Option (List Nat)
  | [] => some []
  | c1 :: c2 :: c3 :: c4 :: rest =>
    match charToSextet c1, charToSextet c2 with
    | some s1, some s2 =>
      if c3 = '=' ∧ c4 = '=' ∧ rest = [] then
        some [s1 * 4 + s2 / 16]
      else if c4 = '=' ∧ rest = [] then
        match charToSextet c3 with
        | some s3 => some [s1 * 4 + s2 / 16, s2 % 16 * 16 + s3 / 4]
        | none => none
      else
        match charToSextet c3, charToSextet c4, decodeBase64 rest with
        | some s3, some s4, some bs =>
            some ((s1 * 4 + s2 / 16) :: (s2 % 16 * 16 + s3 / 4) ::
                  (s3 % 4 * 64 + s4) :: bs)
        | _, _, _ => none
    | _, _ => none
  | _ => none

/-- `extractUserIdFromToken(accessToken)`: split on `'.'`; unless there are
exactly three parts, throw (caught, yielding `null`); otherwise repair and
base64-decode the middle part and parse it (`JSON.parse` plus the `userId`
field access are abstracted as `parseUserId`, `none` covering a parse error
or a missing field).  Every failure path returns `none`. -/
def extractUserIdFromToken {β : Type} (parseUserId : List Nat → Option β)
    (accessToken : List Char) : Option β :=
  let parts := splitOnDot accessToken
  if parts.length ≠ 3 then none
  else
    match decodeBase64 (base64urlRepair (parts.getD 1 [])) with
    | none => none
    | some payload => parseUserId payload

/-- A concrete serializer for exercising the token round-trip: a payload
carrying one byte, laid out as four bytes of serialized text. -/
def byteStringify (v : Fin 256) : List Nat := [v.val, 98, 99, 100]

/-- A concrete parser inverting `byteStringify` on its image. -/
def byteParse (l : List Nat) : Option (Fin 256) :=
  match l with
  | x :: _ => if h : x < 256 then some ⟨x, h⟩ else none
  | [] => none

/-! ### Check-in, points and the per-cycle orchestration -/

/-- `'Daily quest already completed today'` -/
def alreadyCompletedMarker : List Char :=
  "Daily quest already completed today".toList

/-- JavaScript `hay.includes(needle)` on `List Char` strings. -/
def includesSub (needle : List Char) : List Char → Bool
  | [] => needle == []
  | c :: rest => needle.isPrefixOf (c :: rest) || includesSub needle rest

/-- What `performCheckIn` hands back to `processPrivateKey`: the service
response on success, `{alreadyChecked: true}`, or `null` on any other
failure. -/
inductive CheckInResult (α : Type) where
  | checkedIn (response : α)
  | alreadyChecked
  | failed
deriving DecidableEq

/-- `performCheckIn`, applied to the executor's result record: on
`res.success` return the response; otherwise compute
`errorMsg = res.message || 'Unknown error'` and `status = res.status || 'N/A'`
and classify status `502` or `409`, or an `errorMsg` containing the
already-completed marker, as `alreadyChecked`; anything else is a failure
(`null`). -/
def performCheckIn {α : Type} (res : ExecOutcome α) : CheckInResult α :=
  match res with
  | .success r => .checkedIn r
  | .failure msg status =>
    let errorMsg := if msg == [] then unknownError else msg
    if (status == some 502 || status == some 409)
        || includesSub alreadyCompletedMarker errorMsg then
      .alreadyChecked
    else
      .failed

/-- The body of the points response: its optional `totalPoints` field
(`none` for a missing/`null` field, `some 0` for a present zero). -/
structure PointsBody where
  totalPoints : Option Nat
deriving DecidableEq

/-- What `fetchUserPoints` returns: a number, or the string `'N/A'`. -/
inductive PointsResult where
  | pts (n : Nat)
  | na
deriving DecidableEq

/-- `fetchUserPoints`, applied to the executor's result record: a failure
throws (caught, returning `'N/A'`); a success returns
`res.response.totalPoints || 'N/A'`, where a missing or zero (falsy)
`totalPoints` yields `'N/A'`. -/
def fetchUserPoints (res : ExecOutcome PointsBody) : PointsResult :=
  match res with
  | .failure _ _ => .na
  | .success body =>
    match body.totalPoints with
    | none => .na
    | some n => if n = 0 then .na else .pts n

/-- The externally visible steps of `processPrivateKey`, in order. -/
inductive Step where
  | fetchIP
  | login
  | extractId
  | checkIn
  | logCheckInSuccess
  | fetchStats
deriving DecidableEq

/-- The step sequence of `processPrivateKey(pk, index, total, proxy)`:
fetch the public IP, attempt login (returning early if it fails), extract
the user id (returning early if that fails), perform the check-in, log
"Check-in successful" only when its result is truthy and not
`alreadyChecked`, and — whatever the check-in produced — fetch the
account's points. -/
def processPrivateKey {α : Type} (loginOk : Bool) (userIdOk : Bool)
    (checkInRes : CheckInResult α) : List Step :=
  [Step.fetchIP, Step.login] ++
  (if loginOk then
    [Step.extractId] ++
    (if userIdOk then
      [Step.checkIn] ++
      (match checkInRes with
       | .checkedIn _ => [Step.logCheckInSuccess]
       | _ => []) ++
      [Step.fetchStats]
    else [])
  else [])

/-- The timed / logged events of one `runCycle` iteration sequence. -/
inductive CycleEvent where
  | process (i : Nat)
  | printGap
  | interDelay
deriving DecidableEq

/-- `runCycle` over `n` loaded private keys: with none, log and return;
otherwise, for each index `i`, process the key (its errors caught), print
a gap only when `i < n - 1`, and then — unconditionally — `await delay(5)`. -/
def runCycle (n : Nat) : List CycleEvent :=
  if n = 0 then []
  else
    (List.range n).flatMap fun i =>
      [CycleEvent.process i] ++
      (if i < n - 1 then [CycleEvent.printGap] else []) ++
      [CycleEvent.interDelay]

/-! ## Theorems -/

/-- Once the attempt loop is entered with at least one iteration left, it
always returns a record (the `for` loop can only fall off when it never
runs). -/
theorem requestLoop_outcome_isSome {α : Type} (att : Nat → Attempt α) :
    ∀ (n : Nat), 1 ≤ n → ∀ (i : Nat) (b : ℚ),
      ((requestLoop att i n b).outcome).isSome = true := by
  intro n
  induction n with
  | zero => omega
  | succ r ih =>
    intro _ i b
    show ((requestLoop att i (r + 1) b).outcome).isSome = true
    rw [requestLoop]
    cases att i with
    | resp status data successFlagFalse errField =>
      by_cases hf : successFlagFalse = true <;> simp [hf]
    | err status msg =>
      by_cases hc : isClientError status = true
      · simp [hc]
      · simp only [hc]
        by_cases hr : isRetryable status = true ∧ 0 < r
        · simp only [if_pos hr, if_neg hc, Bool.false_eq_true, if_false]
          exact ih (by omega) (i + 1) _
        · simp [hr, hc]

/-- C9: with a zero retry budget the attempt loop body never runs and
`requestWithRetry` returns `undefined` (`none`) rather than a tagged
outcome record; with one or more retries it always returns a record. -/
theorem C9_zero_retries_returns_undefined {α : Type} :
    (∀ (att : Nat → Attempt α) (b : ℚ),
      (requestWithRetry att 0 b).outcome = none) ∧
    (∀ (att : Nat → Attempt α) (b : ℚ) (retries : Nat), 1 ≤ retries →
      ((requestWithRetry att retries b).outcome).isSome = true) := by
  constructor
  · intro att b
    rfl
  · intro att b retries hr
    exact requestLoop_outcome_isSome att retries hr 0 b

/-- Witness for C9 at a concrete transport-erroring attempt stream. -/
theorem C9_witness :
    (requestWithRetry (fun _ => Attempt.err (α := Unit) none "x".toList)
        0 5000).outcome = none ∧
    ((requestWithRetry (fun _ => Attempt.err (α := Unit) none "x".toList)
        5 5000).outcome).isSome = true :=
  ⟨C9_zero_retries_returns_undefined.1 _ 5000,
   C9_zero_retries_returns_undefined.2 _ 5000 5 (by decide)⟩

/-- C1 counterexample: a call whose every attempt is a transport-level
error with no HTTP status (`status = null`), made with the default budget
of 5 retries, returns the failure from its very first attempt: one attempt
used, no backoff slept — the `null` status satisfies neither retryable
disjunct, so no retry happens even though attempts remain. -/
theorem C1_counterexample :
    isRetryable none = false ∧
    requestWithRetry (fun _ => Attempt.err (α := Unit) none "timeout".toList)
        5 5000
      = ⟨some (.failure "timeout".toList none), [], 1⟩ := by
  constructor
  · rfl
  · decide

/-- C1 (amended): an attempt that fails with a transport-level error
carrying no HTTP status is *not* classified as retryable — JavaScript
`null` status fails both `status === 429` and `500 <= status < 600` — so
the executor returns that failure immediately, with `null` status, after
exactly one attempt and no backoff sleep. -/
theorem C1_transport_error_returns_immediately {α : Type}
    (att : Nat → Attempt α) (retries : Nat) (b : ℚ) (msg : List Char)
    (h0 : att 0 = .err none msg) (hr : 1 ≤ retries) :
    requestWithRetry att retries b = ⟨some (.failure msg none), [], 1⟩ := by
  cases retries with
  | zero => omega
  | succ r =>
    rw [requestWithRetry, requestLoop, h0]
    simp [isClientError, isRetryable]

/-- Witness for C1's amended theorem. -/
theorem C1_witness :
    requestWithRetry (fun _ => Attempt.err (α := Unit) none "getaddrinfo ENOTFOUND".toList)
        5 5000
      = ⟨some (.failure "getaddrinfo ENOTFOUND".toList none), [], 1⟩ :=
  C1_transport_error_returns_immediately _ 5 5000 _ rfl (by decide)

/-- C5: a first attempt failing with an HTTP status in `[400, 500)` other
than 429 makes the executor return that failure (a soft failure carrying
the status) at once: one attempt, no sleep, no retry. -/
theorem C5_client_error_immediate {α : Type} (att : Nat → Attempt α)
    (retries : Nat) (b : ℚ) (s : Nat) (msg : List Char)
    (h0 : att 0 = .err (some s) msg)
    (h4 : 400 ≤ s) (h5 : s < 500) (h9 : s ≠ 429) (hr : 1 ≤ retries) :
    requestWithRetry att retries b = ⟨some (.failure msg (some s)), [], 1⟩ := by
  cases retries with
  | zero => omega
  | succ r =>
    rw [requestWithRetry, requestLoop, h0]
    have hce : isClientError (some s) = true := by
      simp [isClientError]
      omega
    simp [hce]

/-- Witness for C5 at a concrete 404 response. -/
theorem C5_witness :
    requestWithRetry (fun _ => Attempt.err (α := Unit) (some 404) "Not Found".toList)
        5 5000
      = ⟨some (.failure "Not Found".toList (some 404)), [], 1⟩ :=
  C5_client_error_immediate _ 5 5000 404 _ rfl (by decide) (by decide)
    (by decide) (by decide)

/-- C10: a successful points fetch whose body has `totalPoints` equal to
`0` — or missing altogether — yields the `'N/A'` sentinel, the very value
every failed fetch yields, so a zero balance and an unavailable one are
indistinguishable at the caller. -/
theorem C10_zero_points_indistinguishable :
    fetchUserPoints (ExecOutcome.success ⟨some 0⟩) = PointsResult.na ∧
    fetchUserPoints (ExecOutcome.success ⟨none⟩) = PointsResult.na ∧
    (∀ (msg : List Char) (status : Option Nat),
      fetchUserPoints (ExecOutcome.failure msg status) =
        fetchUserPoints (ExecOutcome.success ⟨some 0⟩)) :=
  ⟨rfl, rfl, fun _ _ => rfl⟩

/-- C3 counterexample: a cycle over a single identity — which is also its
last — still ends with the 5-second delay: the `i < n - 1` guard in the
loop only suppresses the printed gap, not the `await delay(5)`. -/
theorem C3_counterexample :
    runCycle 1 = [CycleEvent.process 0, CycleEvent.interDelay] ∧
    (runCycle 1).count CycleEvent.interDelay ≠ 0 := by
  decide

/-- Each iteration of the `runCycle` loop body contributes exactly one
5-second delay event, whatever the `i < n - 1` gap guard decides. -/
theorem count_interDelay_flatMap (l : List Nat) (f : Nat → List CycleEvent)
    (h : ∀ i ∈ l, (f i).count CycleEvent.interDelay = 1) :
    (l.flatMap f).count CycleEvent.interDelay = l.length := by
  induction l with
  | nil => simp
  | cons a t ih =>
    rw [List.flatMap_cons, List.count_append, h a (by simp),
      ih (fun i hi => h i (by simp [hi]))]
    simp only [List.length_cons]
    omega

/-- C3 (amended): in every cycle over `n` identities the fixed 5-second
delay is performed after *every* identity, the last included — `n` delays
in total; only the printed gap is restricted to consecutive identities. -/
theorem C3_delay_after_every_identity (n : Nat) :
    (runCycle n).count CycleEvent.interDelay = n := by
  by_cases hn : n = 0
  · subst hn
    rfl
  · rw [runCycle, if_neg hn,
      count_interDelay_flatMap _ _ ?_, List.length_range]
    intro i _
    by_cases hi : i < n - 1 <;>
      simp [hi, List.count_append, List.count_cons, List.count_nil]

/-- Splitting at dots yields one more segment than there are dots. -/
theorem splitOnDot_length (s : List Char) :
    (splitOnDot s).length = s.count '.' + 1 := by
  induction s with
  | nil => rfl
  | cons c rest ih =>
    rw [splitOnDot]
    by_cases hc : c = '.'
    · subst hc
      simp [List.count_cons, ih]
    · rw [if_neg hc]
      cases hsplit : splitOnDot rest with
      | nil => rw [hsplit] at ih; simp at ih
      | cons g gs =>
        rw [hsplit] at ih
        simp only [List.length_cons] at ih ⊢
        rw [ih]
        simp [List.count_cons, hc]

/-- C6: a token without exactly two `'.'` separators does not split into
three segments, so `extractUserIdFromToken` takes the thrown-and-caught
path and returns `null` (`none`); the embedding is a total function, so no
error escapes. -/
theorem C6_bad_token_yields_null {β : Type} (parseUserId : List Nat → Option β)
    (accessToken : List Char) (h : accessToken.count '.' ≠ 2) :
    extractUserIdFromToken parseUserId accessToken = none := by
  have hl : (splitOnDot accessToken).length ≠ 3 := by
    rw [splitOnDot_length]
    omega
  simp [extractUserIdFromToken, hl]

/-- Witness for C6 on a token with no dot at all. -/
theorem C6_witness :
    extractUserIdFromToken (fun _ => some (0 : Nat)) "abc".toList = none :=
  C6_bad_token_yields_null _ _ (by decide)

/-- C8: a check-in whose executor result is a failure with status 502 or
409, or whose error message contains the already-completed marker, is
classified `alreadyChecked` (informational, not a failure); and
`processPrivateKey` performs the stats fetch after the check-in whatever
the check-in's result was. -/
theorem C8_already_checked_then_stats {α : Type} :
    (∀ (msg : List Char) (status : Option Nat),
        (status = some 502 ∨ status = some 409 ∨
          includesSub alreadyCompletedMarker msg = true) →
        performCheckIn (ExecOutcome.failure (α := α) msg status)
          = CheckInResult.alreadyChecked) ∧
    (∀ (r : CheckInResult α),
        Step.fetchStats ∈ processPrivateKey true true r) := by
  constructor
  · intro msg status h
    rcases h with h | h | h
    · simp [performCheckIn, h]
    · simp [performCheckIn, h]
    · by_cases hm : msg = []
      · subst hm
        simp [includesSub, alreadyCompletedMarker] at h
      · simp [performCheckIn, hm, h]
  · intro r
    cases r <;> simp [processPrivateKey]

/-- Witness for C8: a 409 response with the already-completed message, and
a failed check-in still followed by the stats fetch. -/
theorem C8_witness :
    performCheckIn
        (ExecOutcome.failure (α := Unit)
          "Daily quest already completed today".toList (some 409))
      = CheckInResult.alreadyChecked ∧
    Step.fetchStats ∈ processPrivateKey true true (CheckInResult.failed (α := Unit)) :=
  ⟨(C8_already_checked_then_stats (α := Unit)).1 _ _ (Or.inr (Or.inl rfl)),
   (C8_already_checked_then_stats (α := Unit)).2 _⟩

/-- C2 counterexample: alternating 429 and 500 failures make the executor
sleep 30000, 45000, 30000, 45000 ms — the third sleep (a 429 forcing the
30000 ms floor) is strictly below the second, so the sleep sequence of
this call is not monotonically non-decreasing. -/
theorem C2_counterexample :
    ¬ List.Chain' (· ≤ ·)
      ((requestWithRetry
          (fun i => Attempt.err (α := Unit)
            (some (if i % 2 == 0 then 429 else 500)) "e".toList)
          5 5000).sleeps) := by
  have h : (requestWithRetry
      (fun i => Attempt.err (α := Unit)
        (some (if i % 2 == 0 then 429 else 500)) "e".toList)
      5 5000).sleeps = [30000, 45000, 30000, 45000] := by
    simp [requestWithRetry, requestLoop, isClientError, isRetryable]
    norm_num
  rw [h]
  intro hc
  rcases hc with _ | ⟨_, hc⟩
  rcases hc with _ | ⟨h2, _⟩
  norm_num at h2

/-- Along one call, each slept backoff starting from a non-negative value
is followed only by larger sleeps or by the 30000 ms floor a 429 forces;
every sleep is at least the entry backoff or that floor, and non-negative. -/
theorem requestLoop_sleeps_chain {α : Type} (att : Nat → Attempt α) :
    ∀ (n i : Nat) (b : ℚ), 0 ≤ b →
      List.Chain' (fun x y => x ≤ y ∨ y = 30000)
          ((requestLoop att i n b).sleeps) ∧
      (∀ x ∈ ((requestLoop att i n b).sleeps).head?, (b ≤ x ∨ x = 30000)) ∧
      (∀ x ∈ (requestLoop att i n b).sleeps, 0 ≤ x) := by
  intro n
  induction n with
  | zero =>
    intro i b hb
    simp [requestLoop]
  | succ r ih =>
    intro i b hb
    rw [requestLoop]
    cases att i with
    | resp status data successFlagFalse errField =>
      by_cases hf : successFlagFalse = true <;> simp [hf]
    | err status msg =>
      by_cases hc : isClientError status = true
      · simp [hc]
      · simp only [hc, Bool.false_eq_true, if_false]
        by_cases hrr : isRetryable status = true ∧ 0 < r
        · rw [if_pos hrr]
          set b1 := if (status == some 429) = true then (30000 : ℚ) else b
            with hb1
          have hb1pos : 0 ≤ b1 := by
            rw [hb1]
            split
            · norm_num
            · exact hb
          have hb1cases : b ≤ b1 ∨ b1 = 30000 := by
            rw [hb1]
            split
            · right
              rfl
            · left
              exact le_refl b
          obtain ⟨hch, hhd, hpos⟩ :=
            ih (i + 1) (b1 * 1.5) (by nlinarith)
          dsimp only
          refine ⟨?_, ?_, ?_⟩
          · rw [List.chain'_cons']
            refine ⟨?_, hch⟩
            intro y hy
            rcases hhd y hy with h | h
            · left
              nlinarith
            · right
              exact h
          · intro x hx
            simp only [List.head?_cons, Option.mem_def, Option.some.injEq]
              at hx
            rw [← hx]
            exact hb1cases
          · intro x hx
            rcases List.mem_cons.mp hx with rfl | hx
            · exact hb1pos
            · exact hpos x hx
        · rw [if_neg hrr]
          simp

/-- C2 (amended): within one call, the sequence of slept backoffs is
non-decreasing except where a status-429 response forces the next sleep to
exactly 30000 ms, which may undercut an already larger backoff (as the
counterexample shows): each consecutive pair of sleeps either grows or
lands exactly on 30000. -/
theorem C2_backoff_chain {α : Type} (att : Nat → Attempt α) (retries : Nat)
    (b : ℚ) (hb : 0 ≤ b) :
    List.Chain' (fun x y => x ≤ y ∨ y = 30000)
      ((requestWithRetry att retries b).sleeps) :=
  (requestLoop_sleeps_chain att retries 0 b hb).1

/-- Witness for C2's amended theorem on a persistently 500-failing call. -/
theorem C2_witness :
    List.Chain' (fun x y => x ≤ y ∨ y = 30000)
      ((requestWithRetry (fun _ => Attempt.err (α := Unit) (some 500) "e".toList)
          3 5000).sleeps) :=
  C2_backoff_chain _ 3 5000 (by norm_num)

/-- The `k`-th slept backoff of a loop entered at attempt `i` belongs to
attempt `i + k`; when that attempt's status is 429, the sleep is exactly
30000 ms whatever backoff was entered with. -/
theorem requestLoop_429_sleeps {α : Type} (att : Nat → Attempt α) :
    ∀ (n i k : Nat) (b : ℚ),
      (att (i + k)).statusOf = some 429 →
      k < ((requestLoop att i n b).sleeps).length →
      ((requestLoop att i n b).sleeps)[k]? = some 30000 := by
  intro n
  induction n with
  | zero =>
    intro i k b h429 hk
    simp [requestLoop] at hk
  | succ r ih =>
    intro i k b h429 hk
    rw [requestLoop] at hk ⊢
    cases hatt : att i with
    | resp status data successFlagFalse errField =>
      rw [hatt] at hk
      by_cases hf : successFlagFalse = true <;> simp [hf] at hk
    | err status msg =>
      rw [hatt] at hk
      dsimp only at hk ⊢
      by_cases hc : isClientError status = true
      · rw [if_pos hc] at hk
        simp at hk
      · rw [if_neg (by simp [hc])] at hk ⊢
        by_cases hrr : isRetryable status = true ∧ 0 < r
        · rw [if_pos hrr] at hk ⊢
          cases k with
          | zero =>
            have hs : status = some 429 := by
              rw [Nat.add_zero, hatt] at h429
              exact h429
            subst hs
            simp
          | succ k9 =>
            dsimp only at hk ⊢
            rw [List.getElem?_cons_succ]
            have h429s : (att ((i + 1) + k9)).statusOf = some 429 := by
              have : (i + 1) + k9 = i + (k9 + 1) := by omega
              rw [this]
              exact h429
            refine ih (i + 1) k9 _ h429s ?_
            simp only [List.length_cons] at hk
            omega
        · rw [if_neg hrr] at hk
          simp at hk

/-- C4: whenever the attempt at position `k` of a call fails with HTTP
status 429 and a sleep follows it (position `k` of the sleep trace
exists), that sleep is exactly 30000 ms, irrespective of the retry budget
and of the backoff accumulated by earlier attempts. -/
theorem C4_429_sleep_is_30000 {α : Type} (att : Nat → Attempt α)
    (retries : Nat) (b : ℚ) (k : Nat)
    (h429 : (att k).statusOf = some 429)
    (hk : k < ((requestWithRetry att retries b).sleeps).length) :
    ((requestWithRetry att retries b).sleeps)[k]? = some 30000 := by
  have h : (att (0 + k)).statusOf = some 429 := by rwa [Nat.zero_add]
  exact requestLoop_429_sleeps att retries 0 k b h hk

/-- Witness for C4 on a persistently rate-limited call. -/
theorem C4_witness :
    ((requestWithRetry
        (fun _ => Attempt.err (α := Unit) (some 429) "Too Many Requests".toList)
        5 5000).sleeps)[0]? = some 30000 :=
  C4_429_sleep_is_30000 _ 5 5000 0 rfl (by decide)

/-- Translating a base64url alphabet character through the repair's two
replaces yields the standard-alphabet character of the same 6-bit value. -/
theorem charToSextet_repairTr :
    ∀ s : Nat, s < 64 → charToSextet (repairTr (sextetToUrlChar s)) = some s := by
  decide

/-- No translated base64url alphabet character is the padding `'='`. -/
theorem repairTr_ne_pad :
    ∀ s : Nat, s < 64 → repairTr (sextetToUrlChar s) ≠ '=' := by
  decide

/-- The two sequential character replaces of the repair amount to mapping
`repairTr` over the string. -/
theorem replaceAll_eq_map (s : List Char) :
    replaceAll '_' '/' (replaceAll '-' '+' s) = s.map repairTr := by
  induction s with
  | nil => rfl
  | cons c t ih =>
    simp only [replaceAll, List.map_cons] at ih ⊢
    rw [ih]
    by_cases h1 : c = '-'
    · subst h1
      rfl
    · by_cases h2 : c = '_'
      · subst h2
        rfl
      · simp [repairTr, h1, h2]

/-- Normal form of the padding repair: translate every character and
append `(4 - length % 4) % 4` equals signs. -/
theorem base64urlRepair_eq (s : List Char) :
    base64urlRepair s
      = s.map repairTr ++ List.replicate ((4 - s.length % 4) % 4) '=' := by
  simp only [base64urlRepair]
  rw [replaceAll_eq_map]
  simp [List.length_map]

/-- Decoding the repaired unpadded base64url encoding of any byte sequence
returns exactly that byte sequence. -/
theorem decodeBase64_repair_encode :
    ∀ (bs : List Nat), (∀ x ∈ bs, x < 256) →
      decodeBase64 (base64urlRepair (encodeBase64Url bs)) = some bs := by
  intro bs
  induction bs using encodeBase64Url.induct with
  | case1 =>
    intro _
    rfl
  | case2 a =>
    intro h
    have ha : a < 256 := h a (by simp)
    have h1 := charToSextet_repairTr (a / 4) (by omega)
    have h2 := charToSextet_repairTr (a % 4 * 16) (by omega)
    rw [encodeBase64Url, base64urlRepair_eq]
    show decodeBase64
        [repairTr (sextetToUrlChar (a / 4)),
         repairTr (sextetToUrlChar (a % 4 * 16)), '=', '='] = some [a]
    rw [decodeBase64, h1, h2]
    simp
    omega
  | case3 a b =>
    intro h
    have ha : a < 256 := h a (by simp)
    have hb : b < 256 := h b (by simp)
    have h1 := charToSextet_repairTr (a / 4) (by omega)
    have h2 := charToSextet_repairTr (a % 4 * 16 + b / 16) (by omega)
    have h3 := charToSextet_repairTr (b % 16 * 4) (by omega)
    have hne3 := repairTr_ne_pad (b % 16 * 4) (by omega)
    rw [encodeBase64Url, base64urlRepair_eq]
    show decodeBase64
        [repairTr (sextetToUrlChar (a / 4)),
         repairTr (sextetToUrlChar (a % 4 * 16 + b / 16)),
         repairTr (sextetToUrlChar (b % 16 * 4)), '='] = some [a, b]
    rw [decodeBase64, h1, h2, h3]
    simp [hne3]
    omega
  | case4 a b c rest ih =>
    intro h
    have ha : a < 256 := h a (by simp)
    have hb : b < 256 := h b (by simp)
    have hc : c < 256 := h c (by simp)
    have hrest : ∀ x ∈ rest, x < 256 := fun x hx => h x (by simp [hx])
    have h1 := charToSextet_repairTr (a / 4) (by omega)
    have h2 := charToSextet_repairTr (a % 4 * 16 + b / 16) (by omega)
    have h3 := charToSextet_repairTr (b % 16 * 4 + c / 64) (by omega)
    have h4 := charToSextet_repairTr (c % 64) (by omega)
    have hne3 := repairTr_ne_pad (b % 16 * 4 + c / 64) (by omega)
    have hne4 := repairTr_ne_pad (c % 64) (by omega)
    rw [encodeBase64Url, base64urlRepair_eq]
    simp only [List.map_cons, List.length_cons, List.cons_append]
    have hlen : (4 - ((encodeBase64Url rest).length + 1 + 1 + 1 + 1) % 4) % 4
        = (4 - (encodeBase64Url rest).length % 4) % 4 := by
      omega
    rw [hlen, decodeBase64, h1, h2, h3, h4, ← base64urlRepair_eq, ih hrest]
    simp [hne3, hne4]
    refine ⟨by omega, by omega, by omega⟩

/-- C7: encoding a structured payload — any serializable value whose
serializer the parser inverts, producing bytes — as the unpadded base64url
middle segment of a token and then decoding it with the documented repair
algorithm (translate `'-'` to `'+'` and `'_'` to `'/'`, pad with `'='` to
a multiple of four, base64-decode, parse) reproduces the original
payload. -/
theorem C7_roundtrip {P : Type} (stringify : P → List Nat)
    (parse : List Nat → Option P)
    (hinv : ∀ p, parse (stringify p) = some p)
    (hbytes : ∀ p, ∀ x ∈ stringify p, x < 256) (p : P) :
    (decodeBase64 (base64urlRepair (encodeBase64Url (stringify p)))).bind parse
      = some p := by
  rw [decodeBase64_repair_encode _ (hbytes p)]
  simp [hinv]

/-- Witness for C7 on a concrete four-byte payload. -/
theorem C7_witness :
    (decodeBase64 (base64urlRepair (encodeBase64Url
        (byteStringify ⟨104, by decide⟩)))).bind byteParse
      = some ⟨104, by decide⟩ :=
  C7_roundtrip byteStringify byteParse
    (fun p => by simp [byteStringify, byteParse, p.isLt])
    (fun p x hx => by
      simp [byteStringify] at hx
      rcases hx with rfl | rfl | rfl | rfl
      · exact p.isLt
      · omega
      · omega
      · omega)
    ⟨104, by decide⟩

end Idos
